import Mathlib

/-!
# Verification of blobproc against its specification

A shallow embedding, in Lean 4, of the parts of the blobproc repository
(a Go program) that the specification's claims are about:

* `blobPath` — object-store key construction (blob.go),
* `WrapS3.PutBlob` — blob upload validation and put (blob.go),
* `LimitedReader` — the upload size limiter (service.go),
* `BlobHandler` — the upload HTTP handler (service.go),
* `ProcessBlob` / `ProcessFile` — the PDF derivation pipeline
  (pdfextract/pdfextract.go),
* `extractWeblinks` — weblink extraction post-processing
  (pdfextract/pdfextract.go),
* `WalkFast.Run` — the parallel spool walker entry point (blobrun.go).

Go byte strings are modelled as `String` where their content is textual
(hashes, keys, URLs) and as `List Nat` where they are raw bytes.  Effects
performed by collaborators outside the repository (the OS, the crypto
library, external tools, the S3 backend) are passed in as explicit
parameters: a SHA-1 digest appears as a `String` argument, tool
invocations as `Option`-valued outcomes, and the S3 backend as an
explicit state value.
-/

/-! ## Object-store key schema (blob.go, `blobPath`) -/

/-- Go `strings.HasPrefix(s, ".")`: whether the string starts with a
dot (a single-byte, single-character pattern). -/
def startsWithDot (s : String) : Bool :=
  match s.data with
  | [] => false
  | c :: _ => c = '.'

/-- Translated from blob.go `blobPath`:

```go
func blobPath(folder, sha1hex, ext, prefix string) string {
    if len(ext) > 0 && !strings.HasPrefix(ext, ".") {
        ext = "." + ext
    }
    return fmt.Sprintf("%s%s/%s/%s/%s%s",
        prefix, folder, sha1hex[0:2], sha1hex[2:4], sha1hex, ext)
}
```

The Go parameter `prefix` is called `pfx` here because `prefix` is a
reserved word in Lean.  Go slices bytes; for the 40-character hex digests
this function is used with, byte indexing and character indexing agree. -/
def blobPath (folder sha1hex ext pfx : String) : String :=
  let e := if 0 < ext.length ∧ startsWithDot ext = false then "." ++ ext else ext
  pfx ++ folder ++ "/" ++ sha1hex.take 2 ++ "/" ++ (sha1hex.drop 2).take 2
    ++ "/" ++ sha1hex ++ e

/-- Modelled from the spec's words, for comparison with `blobPath`:
"Exact format: `<prefix><folder>/<H[0:2]>/<H[2:4]>/<H>[.<ext>]`", where a
dot is inserted before a non-empty extension that does not already start
with one.  `H[0:2]` are the first two characters and `H[2:4]` the next
two. -/
def blobPathSpec (folder sha1hex ext pfx : String) : String :=
  let e := if ext ≠ "" ∧ startsWithDot ext = false then "." ++ ext else ext
  pfx ++ folder ++ "/" ++ sha1hex.take 2 ++ "/" ++ (sha1hex.drop 2).take 2
    ++ "/" ++ sha1hex ++ e

theorem string_length_pos_iff (s : String) : 0 < s.length ↔ s ≠ "" := by
  constructor
  · intro h he
    subst he
    exact absurd h (by decide)
  · intro h
    cases s with
    | mk data =>
      cases data with
      | nil => exact absurd rfl h
      | cons a as => simp [String.length]

/-! ## Weblink extraction (pdfextract.go, `extractWeblinks`) -/

/-- Per-match cleanup from pdfextract.go `extractWeblinks`: trim
whitespace, then remove all zero-width spaces:

```go
u = strings.TrimSpace(u)
u = strings.Replace(u, zero-width-space, "", -1)
```
-/
def cleanLink (s : String) : String :=
  (s.trim).replace "\u200B" ""

/-- `slices.Compact` from the Go standard library, as used in
`extractWeblinks`: collapse each run of consecutive equal elements to a
single element. -/
def compactAdj : List String → List String
  | [] => []
  | [a] => [a]
  | a :: b :: rest =>
      if a = b then compactAdj (b :: rest) else a :: compactAdj (b :: rest)

/-- Translated from pdfextract.go `extractWeblinks`.  The regex search
(`xurls.Strict().FindAllString`) is an external collaborator; its output,
the list of raw matches found in the text, is the argument.  Each match
is cleaned, then the list is sorted ascending (Go `sort.Strings`,
modelled by insertion sort, which produces the same ascending
arrangement) and consecutive duplicates are removed (`slices.Compact`). -/
def extractWeblinks (ms : List String) : List String :=
  compactAdj (List.insertionSort (· ≤ ·) (ms.map cleanLink))

theorem mem_compactAdj : ∀ {l : List String} {x : String},
    x ∈ compactAdj l → x ∈ l
  | [], _, h => by simp [compactAdj] at h
  | [a], x, h => by simpa [compactAdj] using h
  | a :: b :: rest, x, h => by
      by_cases hab : a = b
      · simp only [compactAdj, if_pos hab] at h
        exact List.mem_cons_of_mem a (mem_compactAdj h)
      · simp only [compactAdj, if_neg hab, List.mem_cons] at h
        rcases h with h | h
        · exact h ▸ List.mem_cons_self x (b :: rest)
        · exact List.mem_cons_of_mem a (mem_compactAdj h)

theorem compactAdj_sorted : ∀ l : List String,
    l.Sorted (· ≤ ·) → (compactAdj l).Sorted (· < ·)
  | [], _ => by simp [compactAdj]
  | [a], _ => by simp [compactAdj]
  | a :: b :: rest, h => by
      have hab : a ≤ b := List.rel_of_sorted_cons h b (List.mem_cons_self b rest)
      have htail : (b :: rest).Sorted (· ≤ ·) := h.of_cons
      have ih := compactAdj_sorted (b :: rest) htail
      by_cases hx : a = b
      · simpa [compactAdj, hx] using ih
      · simp only [compactAdj, if_neg hx]
        refine List.sorted_cons.mpr ⟨?_, ih⟩
        intro x hxmem
        have hxm : x ∈ b :: rest := mem_compactAdj hxmem
        have hbx : b ≤ x := by
          rcases List.mem_cons.mp hxm with hxb | hxr
          · exact hxb ▸ le_refl b
          · exact List.rel_of_sorted_cons htail x hxr
        exact lt_of_lt_of_le (lt_of_le_of_ne hab hx) hbx

/-! ## Claim theorems (first batch) -/

/-- C8: for every folder, 40-character hash, extension and prefix, the
object key produced for a Put is exactly
`<prefix><folder>/<H[0:2]>/<H[2:4]>/<H>[.<ext>]` (a dot is inserted
before a non-empty extension that does not already start with one); in
particular folder "images", hash 4e1243bd22c66e76c2ba9eddc1f91394e57f9f83,
ext "xml", prefix "dev-" yields
`dev-images/4e/12/4e1243bd22c66e76c2ba9eddc1f91394e57f9f83.xml`. -/
theorem blobPath_matches_spec (folder h ext p : String)
    (hlen : h.length = 40) :
    blobPath folder h ext p = blobPathSpec folder h ext p ∧
    blobPath "images" "4e1243bd22c66e76c2ba9eddc1f91394e57f9f83" "xml" "dev-"
      = "dev-images/4e/12/4e1243bd22c66e76c2ba9eddc1f91394e57f9f83.xml" := by
  constructor
  · have hiff : (0 < ext.length ∧ startsWithDot ext = false) ↔
        (ext ≠ "" ∧ startsWithDot ext = false) :=
      and_congr_left' (string_length_pos_iff ext)
    simp only [blobPath, blobPathSpec]
    rw [if_congr hiff rfl rfl]
  · decide

theorem blobPath_matches_spec_witness :
    blobPath "pdf" "40bd001563085fc35165329ea1ff5c5ecbdbbeef" "txt" ""
      = blobPathSpec "pdf" "40bd001563085fc35165329ea1ff5c5ecbdbbeef" "txt" "" ∧
    blobPath "images" "4e1243bd22c66e76c2ba9eddc1f91394e57f9f83" "xml" "dev-"
      = "dev-images/4e/12/4e1243bd22c66e76c2ba9eddc1f91394e57f9f83.xml" :=
  blobPath_matches_spec "pdf" "40bd001563085fc35165329ea1ff5c5ecbdbbeef" "txt" ""
    (by decide)

/-- C9: for every input, the list of extracted weblinks is sorted in
ascending string order and contains no duplicate entries: after trimming
whitespace and removing zero-width spaces from each match, the list is
sorted and adjacent duplicates are removed, so the final list is strictly
deduplicated and sorted. -/
theorem extractWeblinks_sorted_nodup (ms : List String) :
    (extractWeblinks ms).Sorted (· ≤ ·) ∧
    (extractWeblinks ms).Nodup := by
  have hsorted : (List.insertionSort (· ≤ ·) (ms.map cleanLink)).Sorted
      (· ≤ ·) := List.sorted_insertionSort (· ≤ ·) (ms.map cleanLink)
  have hlt : (extractWeblinks ms).Sorted (· < ·) :=
    compactAdj_sorted _ hsorted
  refine ⟨hlt.imp (fun hab => le_of_lt hab), ?_⟩
  exact List.Pairwise.imp (fun hab => ne_of_lt hab) hlt

/-! ## The upload size limiter (service.go, `LimitedReader`) -/

/-- Error outcomes a reader step can report.  `eof` models Go's
`io.EOF`; `sizeExceeded` models the error
"file size exceeds maximum allowed size of %d bytes" produced by
`LimitedReader.Read`. -/
inductive ReaderErr where
  | eof
  | sizeExceeded
  deriving DecidableEq, Repr

/-- Translated from service.go:

```go
type LimitedReader struct {
    R        io.Reader
    N        int64
    MaxBytes int64
}
```

The wrapped reader `R` is an abstract state of type `σ` driven by a
separate step function; the `int64` counters are byte counts, hence
non-negative, modelled as `Nat`. -/
structure LimitedReader (σ : Type) where
  R : σ
  N : Nat
  MaxBytes : Nat

/-- Translated from service.go `LimitedReader.Read`:

```go
func (l *LimitedReader) Read(p []byte) (n int, err error) {
    if l.N >= l.MaxBytes {
        return 0, fmt.Errorf("file size exceeds maximum allowed size of %d bytes", l.MaxBytes)
    }
    allowed := l.MaxBytes - l.N
    if int64(len(p)) > allowed {
        p = p[:allowed]
    }
    n, err = l.R.Read(p)
    l.N += int64(n)
    return
}
```

`readFn` is the underlying reader's `Read`: given its state and the
length of the buffer handed to it, it returns the count of bytes
produced, an optional error, and its next state.  `plen` is `len(p)`. -/
def LimitedReader.Read {σ : Type}
    (readFn : σ → Nat → (Nat × Option ReaderErr) × σ)
    (l : LimitedReader σ) (plen : Nat) :
    (Nat × Option ReaderErr) × LimitedReader σ :=
  if l.MaxBytes ≤ l.N then ((0, some ReaderErr.sizeExceeded), l)
  else
    let allowed := l.MaxBytes - l.N
    let plen2 := if allowed < plen then allowed else plen
    let step := readFn l.R plen2
    (step.1, { R := step.2, N := l.N + step.1.1, MaxBytes := l.MaxBytes })

/-- A sequence of `Read` calls with the given buffer lengths: the list of
`(n, err)` results handed to the caller, and the final reader state. -/
def LimitedReader.runReads {σ : Type}
    (readFn : σ → Nat → (Nat × Option ReaderErr) × σ)
    (l : LimitedReader σ) :
    List Nat → List (Nat × Option ReaderErr) × LimitedReader σ
  | [] => ([], l)
  | p :: ps =>
    let step := LimitedReader.Read readFn l p
    let rest := LimitedReader.runReads readFn step.2 ps
    (step.1 :: rest.1, rest.2)


/-- A concrete in-memory reader over a byte stream: with `rem` bytes
remaining it returns data with no error, and reports EOF once drained.
This is how a Go request body behaves: the final data chunk comes back
with a nil error and the next call returns `(0, io.EOF)`. -/
def bodyRead (rem k : Nat) : (Nat × Option ReaderErr) × Nat :=
  if rem = 0 then ((0, some ReaderErr.eof), 0)
  else ((min k rem, none), rem - min k rem)

theorem bodyRead_contract (s k : Nat) : (bodyRead s k).1.1 ≤ k := by
  unfold bodyRead
  split
  · simp
  · simp [Nat.min_le_left]

theorem limitedRead_eq_of_lt {σ : Type}
    (readFn : σ → Nat → (Nat × Option ReaderErr) × σ)
    (l : LimitedReader σ) (plen : Nat) (h : ¬ l.MaxBytes ≤ l.N) :
    LimitedReader.Read readFn l plen =
      ((readFn l.R (if l.MaxBytes - l.N < plen then l.MaxBytes - l.N else plen)).1,
       { R := (readFn l.R (if l.MaxBytes - l.N < plen then l.MaxBytes - l.N else plen)).2,
         N := l.N + (readFn l.R (if l.MaxBytes - l.N < plen then l.MaxBytes - l.N else plen)).1.1,
         MaxBytes := l.MaxBytes }) := by
  unfold LimitedReader.Read
  rw [if_neg h]

theorem limitedRead_step {σ : Type}
    (readFn : σ → Nat → (Nat × Option ReaderErr) × σ)
    (hc : ∀ s k, (readFn s k).1.1 ≤ k) (l : LimitedReader σ) (plen : Nat) :
    (LimitedReader.Read readFn l plen).2.MaxBytes = l.MaxBytes ∧
    (LimitedReader.Read readFn l plen).2.N
      = l.N + (LimitedReader.Read readFn l plen).1.1 ∧
    (l.N ≤ l.MaxBytes → (LimitedReader.Read readFn l plen).2.N ≤ l.MaxBytes) := by
  by_cases hge : l.MaxBytes ≤ l.N
  · unfold LimitedReader.Read
    rw [if_pos hge]
    exact ⟨rfl, by simp, fun hN => hN⟩
  · rw [limitedRead_eq_of_lt readFn l plen hge]
    refine ⟨rfl, rfl, fun _ => ?_⟩
    have hb := hc l.R (if l.MaxBytes - l.N < plen then l.MaxBytes - l.N else plen)
    have h2 : (if l.MaxBytes - l.N < plen then l.MaxBytes - l.N else plen)
        ≤ l.MaxBytes - l.N := by
      split
      · exact le_refl _
      · omega
    simp only []
    omega

theorem runReads_invariant {σ : Type}
    (readFn : σ → Nat → (Nat × Option ReaderErr) × σ)
    (hc : ∀ s k, (readFn s k).1.1 ≤ k) :
    ∀ (ps : List Nat) (l : LimitedReader σ), l.N ≤ l.MaxBytes →
      (LimitedReader.runReads readFn l ps).2.N ≤ l.MaxBytes ∧
      (LimitedReader.runReads readFn l ps).2.MaxBytes = l.MaxBytes ∧
      (LimitedReader.runReads readFn l ps).2.N
        = l.N + (((LimitedReader.runReads readFn l ps).1.map Prod.fst).sum)
  | [], l, hN => ⟨hN, rfl, by simp [LimitedReader.runReads]⟩
  | p :: ps, l, hN => by
    obtain ⟨hmax, hstep, hbound⟩ := limitedRead_step readFn hc l p
    have hN2 : (LimitedReader.Read readFn l p).2.N
        ≤ (LimitedReader.Read readFn l p).2.MaxBytes := by
      rw [hmax]
      exact hbound hN
    have ih := runReads_invariant readFn hc ps (LimitedReader.Read readFn l p).2 hN2
    rw [hmax] at ih
    simp only [LimitedReader.runReads, List.map_cons, List.sum_cons]
    refine ⟨ih.1, ih.2.1, ?_⟩
    rw [ih.2.2, hstep]
    omega

/-- C10: for every underlying reader and every sequence of `Read` calls
on a `LimitedReader` with `MaxBytes > 0` and `N = 0`, the cumulative
count of bytes handed to the caller never exceeds `MaxBytes` (each
`Read` truncates its buffer to `MaxBytes - N`), and once `N ≥ MaxBytes`
every further `Read` returns zero bytes and the size-exceeded error
rather than data or EOF.  The hypothesis `hc` is the `io.Reader`
contract: a reader hands back at most as many bytes as the buffer it was
given can hold. -/
theorem limitedReader_never_exceeds_cap {σ : Type}
    (readFn : σ → Nat → (Nat × Option ReaderErr) × σ)
    (l : LimitedReader σ) (ps : List Nat)
    (hc : ∀ s k, (readFn s k).1.1 ≤ k)
    (h0 : l.N = 0) (hpos : 0 < l.MaxBytes) :
    (((LimitedReader.runReads readFn l ps).1.map Prod.fst).sum ≤ l.MaxBytes) ∧
    ((LimitedReader.runReads readFn l ps).2.N
      = ((LimitedReader.runReads readFn l ps).1.map Prod.fst).sum) ∧
    (∀ plen,
      (LimitedReader.runReads readFn l ps).2.MaxBytes
          ≤ (LimitedReader.runReads readFn l ps).2.N →
      LimitedReader.Read readFn (LimitedReader.runReads readFn l ps).2 plen
        = ((0, some ReaderErr.sizeExceeded),
           (LimitedReader.runReads readFn l ps).2)) := by
  obtain ⟨hle, hmax, hsum⟩ := runReads_invariant readFn hc ps l (by omega)
  refine ⟨by omega, by omega, ?_⟩
  intro plen hfull
  unfold LimitedReader.Read
  rw [if_pos hfull]

theorem limitedReader_never_exceeds_cap_witness :
    (((LimitedReader.runReads bodyRead ⟨12, 0, 5⟩ [3, 3, 3]).1.map Prod.fst).sum ≤ 5) ∧
    ((LimitedReader.runReads bodyRead ⟨12, 0, 5⟩ [3, 3, 3]).2.N
      = ((LimitedReader.runReads bodyRead ⟨12, 0, 5⟩ [3, 3, 3]).1.map Prod.fst).sum) ∧
    (LimitedReader.Read bodyRead (LimitedReader.runReads bodyRead ⟨12, 0, 5⟩ [3, 3, 3]).2 4
      = ((0, some ReaderErr.sizeExceeded),
         (LimitedReader.runReads bodyRead ⟨12, 0, 5⟩ [3, 3, 3]).2)) := by
  have h := limitedReader_never_exceeds_cap bodyRead ⟨12, 0, 5⟩ [3, 3, 3]
    bodyRead_contract rfl (by decide)
  exact ⟨h.1, h.2.1, h.2.2 4 (by decide)⟩

/-! ## Draining an upload body (`io.Copy` over the limited reader) -/

/-- Outcome of `io.Copy(mw, reader)` in `BlobHandler`: either the number
of bytes written, or the size-exceeded error surfaced by
`LimitedReader.Read`.  `fuelOut` is an artifact of the fuelled loop
below and is proved unreachable. -/
inductive CopyResult where
  | ok (written : Nat)
  | sizeErr
  | fuelOut
  deriving DecidableEq, Repr

/-- The `io.Copy` loop, specialised to a `LimitedReader` over an
in-memory body (`bodyRead`): repeatedly `Read` into a 32768-byte buffer
(the default `io.Copy` buffer size),累accumulate written bytes, stop on
EOF with success and on any other error with that error. -/
def copyLoop : Nat → LimitedReader Nat → Nat → CopyResult
  | 0, _, _ => CopyResult.fuelOut
  | Nat.succ fuel, l, written =>
    let step := LimitedReader.Read bodyRead l 32768
    match step.1.2 with
    | none => copyLoop fuel step.2 (written + step.1.1)
    | some ReaderErr.eof => CopyResult.ok (written + step.1.1)
    | some ReaderErr.sizeExceeded => CopyResult.sizeErr

theorem read_body_full {rem N max : Nat} (h : max ≤ N) :
    LimitedReader.Read bodyRead ⟨rem, N, max⟩ 32768
      = ((0, some ReaderErr.sizeExceeded), ⟨rem, N, max⟩) := by
  unfold LimitedReader.Read
  rw [if_pos h]

theorem read_body_eof {N max : Nat} (hge : ¬ max ≤ N) :
    LimitedReader.Read bodyRead ⟨0, N, max⟩ 32768
      = ((0, some ReaderErr.eof), ⟨0, N, max⟩) := by
  unfold LimitedReader.Read bodyRead
  rw [if_neg hge]
  simp

theorem read_body_data {rem N max : Nat} (hge : ¬ max ≤ N) (hrem : rem ≠ 0) :
    LimitedReader.Read bodyRead ⟨rem, N, max⟩ 32768
      = ((min (if max - N < 32768 then max - N else 32768) rem, none),
         ⟨rem - min (if max - N < 32768 then max - N else 32768) rem,
          N + min (if max - N < 32768 then max - N else 32768) rem, max⟩) := by
  unfold LimitedReader.Read bodyRead
  rw [if_neg hge]
  simp [hrem]

/-- What the copy loop computes: with enough fuel, a body of `rem`
remaining bytes against a limit `max` errors out exactly when
`max ≤ N + rem` (the limiter refuses the `Read` that follows the one
that consumed its allowance), and otherwise drains all bytes. -/
theorem copyLoop_spec : ∀ (fuel rem N written max : Nat),
    N ≤ max → rem + 1 ≤ fuel →
    copyLoop fuel ⟨rem, N, max⟩ written =
      if max ≤ N + rem then CopyResult.sizeErr
      else CopyResult.ok (written + rem)
  | 0, rem, _, _, _, _, hf => absurd hf (by omega)
  | Nat.succ fuel, rem, N, written, max, hN, hf => by
    simp only [copyLoop]
    by_cases hge : max ≤ N
    · rw [read_body_full hge]
      rw [if_pos (by omega)]
    · by_cases hrem : rem = 0
      · subst hrem
        rw [read_body_eof hge]
        rw [if_neg (by omega)]
      · rw [read_body_data hge hrem]
        have hplen : 1 ≤ (if max - N < 32768 then max - N else 32768) ∧
            (if max - N < 32768 then max - N else 32768) ≤ max - N := by
          split <;> omega
        generalize hgen : (if max - N < 32768 then max - N else 32768) = p2
          at hplen ⊢
        obtain ⟨hp1, hp2⟩ := hplen
        have hm1 : 1 ≤ min p2 rem := le_min hp1 (by omega)
        have hm2 : min p2 rem ≤ p2 := Nat.min_le_left _ _
        have hm3 : min p2 rem ≤ rem := Nat.min_le_right _ _
        generalize hgm : min p2 rem = m at hm1 hm2 hm3 ⊢
        rw [copyLoop_spec fuel (rem - m) (N + m) (written + m) max
          (by omega) (by omega)]
        by_cases hcond : max ≤ N + rem
        · rw [if_pos (by omega), if_pos hcond]
        · rw [if_neg (by omega), if_neg hcond]
          dsimp only
          congr 1
          omega

/-- `io.Copy(mw, &LimitedReader{R: r.Body, N: 0, MaxBytes: max})` for a
request body of `bodyLen` bytes. -/
def ioCopyBody (max bodyLen : Nat) : CopyResult :=
  copyLoop (bodyLen + 2) ⟨bodyLen, 0, max⟩ 0

theorem ioCopyBody_spec (max bodyLen : Nat) :
    ioCopyBody max bodyLen =
      if max ≤ bodyLen then CopyResult.sizeErr else CopyResult.ok bodyLen := by
  unfold ioCopyBody
  rw [copyLoop_spec (bodyLen + 2) bodyLen 0 0 max (by omega) (by omega)]
  simp

/-! ## The upload handler (service.go, `WebSpoolService.BlobHandler`) -/

/-- The fields of service.go `WebSpoolService` that `BlobHandler`'s
response depends on.  `MaxFileSize` is an `int64` in Go ("0 = no
limit"), kept as `Int`. -/
structure WebSpoolService where
  Dir : String
  ListenAddr : String
  MaxFileSize : Int
  deriving Repr

/-- An HTTP response as observed by the client: status code and the
`Location` header if one was set. -/
structure HttpResponse where
  status : Nat
  location : Option String
  deriving DecidableEq, Repr

/-- Translated from service.go `WebSpoolService.BlobHandler`
(lines 204-340), following its control flow step by step:

 1. disk admission: the outcome of `hasSufficientDiskSpace` is the
    `diskOk` argument (the disk itself is outside the program);
    `!ok` replies 429;
 2. `svc.MaxFileSize > 0 && r.ContentLength > svc.MaxFileSize`
    replies 413;
 3. the body is drained through `io.Copy`, wrapped in a
    `LimitedReader` when `MaxFileSize > 0`; a size-exceeded error
    replies 413;
 4. `n != r.ContentLength` replies 500 ("content length mismatch");
 5. `shardedPath` fails with `errShortName` (500) when the digest is
    shorter than 8 characters;
 6. if a file already exists at the sharded path and its size equals
    `r.ContentLength`, reply 202 with `Location: spoolPath`
    (line 307), where `spoolPath = "/spool/" + digest`;
 7. otherwise move the temp file into place and reply 202 with
    `Location: spoolURL` (line 338), where
    `spoolURL = "http://" + svc.ListenAddr + spoolPath`.

Environment effects with no bearing on the claims are taken to
succeed: temp-file creation and close, the move, and the URL-map
insert.  `contentLength` is `r.ContentLength` (`-1` when the producer
sent no Content-Length header, as in Go's `net/http`); `bodyLen` is
the actual number of bytes in the body; `digest` is the hex SHA-1 that
the streaming hash computed; `existing` is the size of the file
already present at the sharded path, if any. -/
def BlobHandler (svc : WebSpoolService) (diskOk : Bool) (contentLength : Int)
    (bodyLen : Nat) (digest : String) (existing : Option Int) : HttpResponse :=
  if diskOk = false then { status := 429, location := none }
  else if 0 < svc.MaxFileSize ∧ svc.MaxFileSize < contentLength then
    { status := 413, location := none }
  else
    match (if 0 < svc.MaxFileSize then ioCopyBody svc.MaxFileSize.toNat bodyLen
           else CopyResult.ok bodyLen) with
    | CopyResult.sizeErr => { status := 413, location := none }
    | CopyResult.fuelOut => { status := 500, location := none }
    | CopyResult.ok n =>
      if (n : Int) ≠ contentLength then { status := 500, location := none }
      else if digest.length < 8 then { status := 500, location := none }
      else
        let spoolPath := "/spool/" ++ digest
        let spoolURL := "http://" ++ svc.ListenAddr ++ spoolPath
        match existing with
        | some size =>
          if contentLength = size then
            { status := 202, location := some spoolPath }
          else { status := 202, location := some spoolURL }
        | none => { status := 202, location := some spoolURL }

/-- C1 counterexample: a first-time upload of 3 bytes (Content-Length 3,
nothing yet in the spool) is accepted with 202, but its `Location`
header is `http://<addr>/spool/<H>`, not `/spool/<H>` as the claim
requires. -/
theorem blobHandler_location_counterexample :
    (BlobHandler ⟨"/var/spool", "localhost:8000", 0⟩ true 3 3
        "4e1243bd22c66e76c2ba9eddc1f91394e57f9f83" none).status = 202 ∧
    (BlobHandler ⟨"/var/spool", "localhost:8000", 0⟩ true 3 3
        "4e1243bd22c66e76c2ba9eddc1f91394e57f9f83" none).location
      ≠ some ("/spool/" ++ "4e1243bd22c66e76c2ba9eddc1f91394e57f9f83") ∧
    (BlobHandler ⟨"/var/spool", "localhost:8000", 0⟩ true 3 3
        "4e1243bd22c66e76c2ba9eddc1f91394e57f9f83" (some 3)).location
      ≠ (BlobHandler ⟨"/var/spool", "localhost:8000", 0⟩ true 3 3
        "4e1243bd22c66e76c2ba9eddc1f91394e57f9f83" none).location := by
  refine ⟨?_, ?_, ?_⟩ <;> decide

/-- C1 as amended: every successful upload replies 202, but the
`Location` header differs between the two success paths: a fresh store
carries `Location: http://<ListenAddr>/spool/<H>` (service.go line 338),
while a duplicate — a file already at the sharded path whose size equals
the declared Content-Length — carries `Location: /spool/<H>`
(service.go line 307); so re-uploading the same bytes yields 202 both
times but with different Location headers. -/
theorem blobHandler_location_amended (svc : WebSpoolService)
    (contentLength : Int) (bodyLen : Nat) (digest : String)
    (hcap : svc.MaxFileSize = 0) (hcl : contentLength = (bodyLen : Int))
    (h8 : 8 ≤ digest.length) :
    BlobHandler svc true contentLength bodyLen digest none
      = { status := 202,
          location := some ("http://" ++ svc.ListenAddr ++ ("/spool/" ++ digest)) } ∧
    BlobHandler svc true contentLength bodyLen digest (some contentLength)
      = { status := 202, location := some ("/spool/" ++ digest) } := by
  unfold BlobHandler
  rw [hcap, hcl]
  norm_num
  omega

theorem blobHandler_location_amended_witness :
    BlobHandler ⟨"/var/spool", "localhost:8000", 0⟩ true 3 3
        "4e1243bd22c66e76c2ba9eddc1f91394e57f9f83" none
      = { status := 202,
          location := some ("http://" ++ "localhost:8000"
            ++ ("/spool/" ++ "4e1243bd22c66e76c2ba9eddc1f91394e57f9f83")) } ∧
    BlobHandler ⟨"/var/spool", "localhost:8000", 0⟩ true 3 3
        "4e1243bd22c66e76c2ba9eddc1f91394e57f9f83" (some 3)
      = { status := 202,
          location := some ("/spool/" ++ "4e1243bd22c66e76c2ba9eddc1f91394e57f9f83") } :=
  blobHandler_location_amended ⟨"/var/spool", "localhost:8000", 0⟩ 3 3
    "4e1243bd22c66e76c2ba9eddc1f91394e57f9f83" rfl rfl (by decide)

/-- C3 counterexample: with a cap of 5 bytes configured, an upload whose
body length is exactly 5 — equal to the cap, not exceeding it — is
rejected with 413, not accepted with 202: `io.Copy` issues one more
`Read` after the limiter's allowance is consumed, and that `Read`
errors. -/
theorem blobHandler_exact_cap_rejected :
    (BlobHandler ⟨"/var/spool", "localhost:8000", 5⟩ true 5 5
        "4e1243bd22c66e76c2ba9eddc1f91394e57f9f83" none).status = 413 ∧
    (BlobHandler ⟨"/var/spool", "localhost:8000", 5⟩ true 5 5
        "4e1243bd22c66e76c2ba9eddc1f91394e57f9f83" none).status ≠ 202 := by
  refine ⟨?_, ?_⟩ <;> decide

/-- C3 as amended: when a positive maximum file size is configured, an
upload is rejected with 413 if and only if the declared Content-Length
exceeds the cap or the body length is at least the cap: the
size-limiting reader yields its error on the first `Read` attempted
once `MaxBytes` bytes have been consumed, and `io.Copy` always attempts
that `Read`, so an upload whose body length equals the cap is rejected,
not accepted. -/
theorem blobHandler_413_iff (svc : WebSpoolService) (contentLength : Int)
    (bodyLen : Nat) (digest : String) (existing : Option Int)
    (hmax : 0 < svc.MaxFileSize) :
    (BlobHandler svc true contentLength bodyLen digest existing).status = 413
      ↔ (svc.MaxFileSize < contentLength
         ∨ svc.MaxFileSize ≤ (bodyLen : Int)) := by
  unfold BlobHandler
  rw [if_neg (by simp)]
  by_cases hcl : svc.MaxFileSize < contentLength
  · rw [if_pos ⟨hmax, hcl⟩]
    simp [hcl]
  · rw [if_neg (fun hand => hcl hand.2)]
    rw [if_pos hmax, ioCopyBody_spec]
    by_cases hbl : svc.MaxFileSize.toNat ≤ bodyLen
    · rw [if_pos hbl]
      dsimp only
      exact iff_of_true rfl (Or.inr (Int.toNat_le.mp hbl))
    · rw [if_neg hbl]
      dsimp only
      constructor
      · intro h413
        exfalso
        revert h413
        cases existing with
        | none => split_ifs <;> simp
        | some sz =>
          dsimp only
          split_ifs <;> simp
      · intro hdisj
        exfalso
        rcases hdisj with h | h
        · exact hcl h
        · exact hbl (Int.toNat_le.mpr h)

theorem blobHandler_413_iff_witness :
    (BlobHandler ⟨"/var/spool", "localhost:8000", 5⟩ true 4 5
        "4e1243bd22c66e76c2ba9eddc1f91394e57f9f83" none).status = 413 :=
  (blobHandler_413_iff ⟨"/var/spool", "localhost:8000", 5⟩ 4 5
      "4e1243bd22c66e76c2ba9eddc1f91394e57f9f83" none (by decide)).mpr
    (Or.inr (by decide))

/-- C4 counterexample: an upload whose producer sent no Content-Length
header (`r.ContentLength = -1` in Go's `net/http` for a chunked body)
with a 3-byte body is answered 500, not 202: the handler's
`n != r.ContentLength` check is never skipped. -/
theorem blobHandler_no_contentlength_counterexample :
    BlobHandler ⟨"/var/spool", "localhost:8000", 0⟩ true (-1) 3
        "4e1243bd22c66e76c2ba9eddc1f91394e57f9f83" none
      = { status := 500, location := none } := by decide

/-- C4 as amended: the handler performs the bytes-written comparison
unconditionally; whenever the declared Content-Length differs from the
number of bytes actually written — including when the producer sent no
Content-Length at all, in which case `r.ContentLength` is `-1` and any
body disagrees with it — the handler replies 500.  (Stated with no size
cap configured, so that the comparison is the deciding step.) -/
theorem blobHandler_mismatch_500 (svc : WebSpoolService)
    (contentLength : Int) (bodyLen : Nat) (digest : String)
    (existing : Option Int) (hcap : svc.MaxFileSize = 0)
    (hne : (bodyLen : Int) ≠ contentLength) :
    BlobHandler svc true contentLength bodyLen digest existing
      = { status := 500, location := none } := by
  unfold BlobHandler
  rw [hcap]
  rw [if_neg (by simp)]
  rw [if_neg (by norm_num)]
  rw [if_neg (by norm_num)]
  dsimp only
  rw [if_pos hne]

theorem blobHandler_mismatch_500_witness :
    BlobHandler ⟨"/var/spool", "localhost:8000", 0⟩ true (-1) 7
        "4e1243bd22c66e76c2ba9eddc1f91394e57f9f83" none
      = { status := 500, location := none } :=
  blobHandler_mismatch_500 ⟨"/var/spool", "localhost:8000", 0⟩ (-1) 7
    "4e1243bd22c66e76c2ba9eddc1f91394e57f9f83" none rfl (by decide)

/-! ## The S3 wrapper (blob.go, `WrapS3.PutBlob`) -/

/-- Go `DefaultBucket = "sandcrawler"`. -/
def DefaultBucket : String := "sandcrawler"

/-- blob.go `BlobRequestOptions`.  The Go field `Prefix` is called
`Pfx` here (`prefix` is reserved in Lean); blob bytes are `List Nat`. -/
structure BlobRequestOptions where
  Folder : String
  Blob : List Nat
  SHA1Hex : String
  Ext : String
  Pfx : String
  Bucket : String
  deriving DecidableEq, Repr

/-- blob.go `PutBlobResponse`. -/
structure PutBlobResponse where
  Bucket : String
  ObjectPath : String
  deriving DecidableEq, Repr

/-- The error kinds `PutBlob` can produce in this model.  The backend
is modelled as available and well-behaved, so only the validation error
`ErrInvalidHash` remains. -/
inductive PutError where
  | invalidHash
  deriving DecidableEq, Repr

deriving instance DecidableEq for Except

/-- One object stored in the modelled S3 backend. -/
structure S3Object where
  bucket : String
  key : String
  blob : List Nat
  contentType : String
  deriving DecidableEq, Repr

/-- The modelled S3 backend state: the buckets that exist and every
object that has been put, in order. -/
structure S3State where
  buckets : List String
  objects : List S3Object
  deriving DecidableEq, Repr

/-- The Content-Type table from blob.go `PutBlob` (a chain of
`strings.HasSuffix(req.Ext, ...)` checks, later checks overriding
earlier ones). -/
def contentTypeFor (ext : String) : String :=
  let ct := "application/octet-stream"
  let ct := if ext.endsWith ".xml" then "application/xml" else ct
  let ct := if ext.endsWith ".png" then "image/png" else ct
  let ct := if ext.endsWith ".jpg" ∨ ext.endsWith ".jpeg" then "image/jpeg" else ct
  if ext.endsWith ".txt" then "text/plain" else ct

/-- Translated from blob.go `WrapS3.PutBlob` (lines 96-153):

 1. if `req.SHA1Hex` is empty, compute the SHA-1 of the blob — the
    digest of `req.Blob`, a crypto-library result, is the
    `computedSHA1` argument;
 2. `if len(req.SHA1Hex) != 40 { return nil, ErrInvalidHash }` — the
    length is the only thing checked;
 3. build the object path with `blobPath`, default the bucket, create
    the bucket if missing, and put the object with the Content-Type
    table above.  The backend (minio) is modelled as echoing the
    requested bucket and key, so the two mismatch checks pass and the
    response carries them.

Returns the response (or error) together with the backend state after
the call. -/
def WrapS3.PutBlob (computedSHA1 : String) (req : BlobRequestOptions)
    (st : S3State) : Except PutError PutBlobResponse × S3State :=
  let effectiveHash := if req.SHA1Hex = "" then computedSHA1 else req.SHA1Hex
  if effectiveHash.length ≠ 40 then (Except.error PutError.invalidHash, st)
  else
    let objPath := blobPath req.Folder effectiveHash req.Ext req.Pfx
    let bucket := if req.Bucket = "" then DefaultBucket else req.Bucket
    let st1 : S3State :=
      if bucket ∈ st.buckets then st
      else { buckets := bucket :: st.buckets, objects := st.objects }
    let obj : S3Object :=
      { bucket := bucket, key := objPath, blob := req.Blob,
        contentType := contentTypeFor req.Ext }
    (Except.ok { Bucket := bucket, ObjectPath := objPath },
     { buckets := st1.buckets, objects := st1.objects ++ [obj] })

/-- C5 counterexample: a supplied hash of forty `z` characters — 40
characters long but not hexadecimal — is not rejected: `PutBlob`
succeeds and writes an object whose key embeds the non-hex string,
because only the length of the hash is checked. -/
theorem putBlob_nonhex_accepted :
    (WrapS3.PutBlob "da39a3ee5e6b4b0d3255bfef95601890afd80709"
        { Folder := "pdf", Blob := [], SHA1Hex := "zzzzzzzzzzzzzzzzzzzzzzzzzzzzzzzzzzzzzzzz",
          Ext := "", Pfx := "", Bucket := "" } ⟨[], []⟩).1
      ≠ Except.error PutError.invalidHash ∧
    (WrapS3.PutBlob "da39a3ee5e6b4b0d3255bfef95601890afd80709"
        { Folder := "pdf", Blob := [], SHA1Hex := "zzzzzzzzzzzzzzzzzzzzzzzzzzzzzzzzzzzzzzzz",
          Ext := "", Pfx := "", Bucket := "" } ⟨[], []⟩).2.objects.length = 1 := by
  refine ⟨?_, ?_⟩ <;> decide

/-- C5 as amended: `PutBlob` computes the SHA-1 from the blob bytes when
the supplied hash is empty, and fails with `ErrInvalidHash` exactly when
the supplied hash is non-empty and is not 40 characters long — the hash
is never checked for being hexadecimal, so a 40-character non-hex string
is accepted — and no object is written when that error is returned. -/
theorem putBlob_invalidHash_iff (computedSHA1 : String)
    (req : BlobRequestOptions) (st : S3State)
    (hc : computedSHA1.length = 40) :
    ((WrapS3.PutBlob computedSHA1 req st).1 = Except.error PutError.invalidHash
      ↔ (req.SHA1Hex ≠ "" ∧ req.SHA1Hex.length ≠ 40)) ∧
    ((WrapS3.PutBlob computedSHA1 req st).1 = Except.error PutError.invalidHash
      → (WrapS3.PutBlob computedSHA1 req st).2 = st) ∧
    (req.SHA1Hex = "" →
      (WrapS3.PutBlob computedSHA1 req st).1
        = Except.ok { Bucket := if req.Bucket = "" then DefaultBucket else req.Bucket,
                      ObjectPath := blobPath req.Folder computedSHA1 req.Ext req.Pfx }) := by
  unfold WrapS3.PutBlob
  by_cases hemp : req.SHA1Hex = ""
  · rw [if_pos hemp]
    rw [if_neg (by omega)]
    refine ⟨?_, ?_, ?_⟩
    · constructor
      · intro h
        exact absurd h (by simp)
      · intro h
        exact absurd hemp h.1
    · intro h
      exact absurd h (by simp)
    · intro _
      rfl
  · rw [if_neg hemp]
    by_cases hlen : req.SHA1Hex.length ≠ 40
    · rw [if_pos hlen]
      refine ⟨?_, ?_, ?_⟩
      · exact iff_of_true rfl ⟨hemp, hlen⟩
      · intro _
        rfl
      · intro h
        exact absurd h hemp
    · rw [if_neg hlen]
      refine ⟨?_, ?_, ?_⟩
      · constructor
        · intro h
          exact absurd h (by simp)
        · intro h
          exact absurd h.2 hlen
      · intro h
        exact absurd h (by simp)
      · intro h
        exact absurd h hemp

theorem putBlob_invalidHash_iff_witness :
    ((WrapS3.PutBlob "da39a3ee5e6b4b0d3255bfef95601890afd80709"
        { Folder := "pdf", Blob := [], SHA1Hex := "abc",
          Ext := "", Pfx := "", Bucket := "" } ⟨[], []⟩).1
      = Except.error PutError.invalidHash) ∧
    ((WrapS3.PutBlob "da39a3ee5e6b4b0d3255bfef95601890afd80709"
        { Folder := "pdf", Blob := [], SHA1Hex := "abc",
          Ext := "", Pfx := "", Bucket := "" } ⟨[], []⟩).2 = ⟨[], []⟩) := by
  have h := putBlob_invalidHash_iff "da39a3ee5e6b4b0d3255bfef95601890afd80709"
    { Folder := "pdf", Blob := [], SHA1Hex := "abc",
      Ext := "", Pfx := "", Bucket := "" } ⟨[], []⟩ (by decide)
  have herr := h.1.mpr (by refine ⟨?_, ?_⟩ <;> decide)
  exact ⟨herr, h.2.1 herr⟩

/-! ## The PDF derivation pipeline (pdfextract/pdfextract.go) -/

/-- pdfextract.go `FileInfo`: checksums and size for a file, produced by
`FromBytes` (the crypto and mimetype libraries are external, so values
of this structure enter the model as data). -/
structure FileInfo where
  Size : Int
  SHA1Hex : String
  SHA256Hex : String
  MD5Hex : String
  Mimetype : String
  deriving DecidableEq, Repr

/-- The static block-list from pdfextract.go `BAD_PDF_SHA1HEX`:
SHA-1 digests of PDFs known to hang the rasterizer. -/
def BAD_PDF_SHA1HEX : List String := [
  "011478a1e63a2a31eae1a93832a74cc95f220760",
  "018dfe9824de6d2ac068ce0f7dc9961bffa1b558",
  "057c7a9dfb611bfd52f7de6c39b2d5757c5e4e53",
  "06061af0707298c12932516d1bb7c2b6dc443824",
  "0641822e68c5a07538b967489fd19a1d5dc371a5",
  "09cba9b00494d12759c50cb914f1fb7c9746f5d1",
  "09db7c9f2efb496c974427a61e84292ae27fc702",
  "0a1c13cb8783bbbf248b2345b9890e2410aa3f0a",
  "0ccc6dc94f4e2d809fac8543870265c3421f3c9e",
  "0d1c1567ea70e7b922ba88ccb868ffc7ca18e75c",
  "10c6577a658bf6203557e2998b25ea9788f8adfe",
  "15a720921ce30da983fcd1bfa7fe9aeeda503e41",
  "1659881a31edc2d0e170f6bb26d32e74cc4ca387",
  "17e679b0ec9444fff2ea4d02caec05dd2de80ec3",
  "182749ad1db1d5e999d07f010bdcfc2978dadc88",
  "1a17a4fc43397804830cc29021281aac2e8cf0cb",
  "1cb166f0c0b5ffe673e6bbf6a29d77278711f253",
  "1d04e46b6848e6479dd90fe26bb11627044fb664",
  "1d967c95546d31edaaf0c3ef9ffcc11113a9e11a",
  "1f90194bf0c7fff1fe1ed5fff77a934c7a1b32a0",
  "20589d9dd0a22c8c938ad97b7f4f12648aa119fa",
  "2195e528fa1cf5f8ae3b2adcc516896016c3411f",
  "25ab9e6169f041be05844a9b4edd6574918af769",
  "281de904c4642a9be4f17b9774fc0a2bdc8a90e3",
  "2bd5322975653536550a039eb055174b2bf241b3",
  "2fc64da736175810918fd32c94c5068b0d660bcc",
  "32318fba9b05b2756b7362bcaa4722c92ed8d449",
  "336833c6fc968cd0938250dfc93c032a30111cfc",
  "362ad00bc24d650c8f11851f9e554fc560b73e7a",
  "373f84dfab4ed47047826e604e2918a9cd6a95b2",
  "3ac0b6e17e30d141871a0a5b127536919fe5aa19",
  "3c8a6a708da0dc1802f5f3e5267a49b3c25e1ffe",
  "3e5f9fb94e7314447a22f3d009419a922136177f",
  "3fad493c940137ce703f2f570ebb504e360c6df3",
  "40aa94602ab13e5a7d9df8c989fca4fa5c01239e",
  "427479c94d7d0e512f898bc7ff0b6f210069f902",
  "436c9183724f051b22c96285aa8ff1d2ba709574",
  "43a8c0abf0386d3e3397cf5e22a884761dd63db7",
  "445968ef735b228c08c3ff4238d99fc9f4824619",
  "447fa6b5a90742a86429a932f6608d8e141688c0",
  "45f014d7d631559dc7726e5c5513f1e7c91c48a9",
  "47577ff6d6876117ca69bec60a5764f7d2c2ec70",
  "4785181cec8944eee00ddb631a5dfc771b89bab7",
  "47db2db2cc976429568841a0496c0ab4ed7b5977",
  "481c0bae81873988fcc8662ba8a269e8823fdea2",
  "4c81129904f7976a50825595a3497ea7b52579ef",
  "4edc1402712fa6827c4501fed8042e9f4447829c",
  "50b3c5a3122272aca69855ef06b85d0b43a76eb1",
  "52fc9b3c5199ef395d410c7cee5961dc812e4d29",
  "53471346019947a88c1ba141fb829375527153b0",
  "58d9ae7dcb0a7dbbdfc58ad266030b037e9cd0ff",
  "59cfc843ebdb1c1e5db1efc76a40f46cb3bb06f0",
  "5ab98405b676ee81a6ca74fba51a9e4a6cff7311",
  "5c5b45c85eff07d4302844e00ec8baa57b988c60",
  "5e04779cbbae5ce88bb786064f756885dd6895fe",
  "5e6a3adde9f08c276c4efd72bfacb256f2ec35d9",
  "62247fe6b8d3ca50477cafddbe24bf63832d6674",
  "623ff84b616383d0a3e0dd8dbce12f0b5fe9a6ac",
  "646c4a654270606256397684204ff0f3d17be2e7",
  "64d821d728f9a3dc944b4c03be00feea0b57e314",
  "668b7d777203af4b261d21bf4669fc9b385062e1",
  "689b5cb3ddef213d612363a903f10d0358ea64d2",
  "6909f0b62d8b7835de3dec7777aad7f8ef507ee3",
  "74e617dc95555e8ca3aadd19d0c85b71cd77d1d9",
  "7596438d77444a7c4228bb96fa4b394ba7d7e23b",
  "75c2662a96ccc48891228df7c85eb7d4da9dd621",
  "771f1ca0007a6fbed5b4a434c73f524f715d33c1",
  "776859635e9dc01d97b0582f49c814ffbcb019fb",
  "781dafda896a9f5c30f3d0a011f79a3b79b574c4",
  "788672c7c2bcdecf6e2f6a2177c01e60f04d9cfb",
  "79d6cba3c6e577a0f3a3a9fe575680d38454938d",
  "7b8b7e8e4b789579a7d2fda329db52528383a652",
  "7c5c925cfb7c5a861b5c0a1d923308f9bedd335e",
  "7cfc0739be9c49d94272110a0a748256bdde9be6",
  "7daf61526ec825151f384cc1db510ca5237d5d80",
  "7e9d846f3bf9ce15cdb991b78cc870ab8a2bed76",
  "800e47a7ed214f7acac85cc29aa7b0f9c0e218ae",
  "8398b211a5ec4da1195a4ba1bc29ca8c0ac40f67",
  "859d7ec532a0bf3b52b17c7f2d8ecc58410c0aad",
  "88edcbab1cac2d70af5870422974afc253f4f0c6",
  "89860fc475fcb2a2d86c4544df52ec8fd5e6533f",
  "8dcaf4ef132900dd378f7be526c884b17452713b",
  "8e4f03c29ae1fe7227140ab4b625f375f6c00d31",
  "8ec1a17ec19ae8ade95b9bdc837236981e83fffb",
  "949dfb7d833da9576b2ccb9eb1ab5457469c53d3",
  "961ec451172f373f919c593737466300e42062cb",
  "976989fa6e447578d9ce16ec5b526f0e09d6df50",
  "977f23723027d7052df9b49eb467e6c0b9af93ff",
  "98b02eb70066c182c705ef4d14d8b723ad7f1fab",
  "993ca31f6974f8387bb18dd7d38987d290da8781",
  "9dbd05af3442e6f42d67868054751b76973f4171",
  "a1cc781c694a48e018f4de110b58f561aa212051",
  "a2298c137b9c8c8975bad62eea9224edb95e6952",
  "a2671738755ab8b24775e95375dc72f1ca4e5fd6",
  "a26f299fb97c646effeebd4c5e2968786bd0f781",
  "a48f9b7ad627909f76d780aa4208530304ece42c",
  "a69665d0b5d3b95f54f68406eee3ed50c67efb45",
  "a69665d0b5d3b95f54f68406eee3ed50c67efb45",
  "a8357c31837404f9ebd798999d546c9398ab3648",
  "a9162b9aef5e5da0897275fede1a6cff8cc93dfc",
  "abc9d264df446707b40d7c9f79befd0f89291e59",
  "ad038725bf6855a79f3c768ebe93c7103d14522f",
  "aef581bf42e76e527f5aed3b8958fd4e7a24819f",
  "b2b66b9c7f817a20144456f99c0be805602e8597",
  "b2d719120306b90eb8dd3580b699a61ec70556f4",
  "b4b8e18e27f102e59b2be2d58c7b54d0a0eb457a",
  "b5be7f409a3a2601208c5ce08cf52b9ac1094aae",
  "b5bf8b7467fb095c90adf3b49aa1687291e4469c",
  "b8b427e5b3d650ba9e03197f9c3917e25b878930",
  "bad48b89b639b5b7df2c6a2d5288181fcb8b0e35",
  "be0cda7642e9247b3ee41cd2017fa709aab4f344",
  "beff1b0c24aa99989be73c66dfb1d1e7578e370b",
  "c1b583fbd052572f08158d39ffe4d7510dadbebb",
  "c2526f75a013dc67b14ce1e2d0e4fc80bb93c6e1",
  "c4abbb284f4acaca9e8ceb88f842901984e84d33",
  "c58e028269c8dfd3a442f6745c81b4c0e8610c43",
  "c7220d1bf1e71fb755d9f26bbdd4c539dc162960",
  "c7687fa6f637c7d32a25be0e772867d87536d35c",
  "c7d8b37ec99cf0d987e60667f05299f200e18a5d",
  "c92b9ae9eefa07504950b405625aef54b48f0e1a",
  "ccb1debcfae006a3fc984e9e91309b9706a5c375",
  "cd611c765cbb0b3b7cb2fdc07d8f0b9cc93ec257",
  "cd8a7c3b8d850ebedc1ca791ccb37b9a2689f9c3",
  "d055c054c330f99ec011e37186d2b429339758fd",
  "d17b1e254cce82df5c6eb4fd492cef91e7e11558",
  "d188762a7e3ab5d4ee8a897204316513e4e636ec",
  "d613b9e4442f5d5d19ea6814fa9729bff7da7c85",
  "d6b0f405bf13c23d0e90c54eea527442786d1cd3",
  "d91d3830bf455e6dd782eee46218e35d29f07dfd",
  "da2211ee2dbc6dda36571976d810e2366a3d2504",
  "dbb3093a797e0ae83d39eb7b235ff85a17fd965c",
  "e01bb7256d77aea258313bb410dfcfc10512f420",
  "e2bf5d0a5885359381fe8ef2cd9290171d494e9b",
  "e2c3b8a2cf33d5e8972bc9ddb78373766a75e412",
  "e64714a81f60ab9286ec90cad682cb22e564fb6f",
  "e9d7716b4f94bbc3d94459b5fe9bb8b15cb2e433",
  "e9e84e17383e93a784a8471708619162b32fb399",
  "eac7df5f799983d5a7cc55d10b4d426dc557febf",
  "eaf84b2efd2f69c7b3f407f89ea66ac4c41fac36",
  "eb1b39fd7a874896688855a22efddef10272427c",
  "eb5fffaa590a52bcc3705b888c6ff9c4dc4c45b2",
  "ecc4b927c5e84e145c610876931bc261ae13769b",
  "edf8dcc8736f06afbaca0e01d60bd2c475403a3d",
  "ee2ee6ae2cf05128810d0d95bbe69bd263e140de",
  "ee9530a2c5a3d1e3813ccb51a55cc8b0d9b5dfc7",
  "ef1dfa325c21cff4cd8bb1a9b6c4ee6996d43c8f",
  "ef6749d9263a01f921ba7d72df0d17671d14e5f6",
  "f0ea221d8587cede25592266486e119d277f7096",
  "f68f9a9202a75d2aee35252e104d796f9515001e",
  "f9314d3bf2eac78a7d78d18adcccdb35542054ef",
  "f932ef936021a3b00842b481478c40868b9a007c",
  "fd9bd560662e070b222d63052830837829c490f0"
]

/-- pdfextract.go `Result` (the fields the claims are about).  `Err`
holds the message of the recorded error, `none` when no error was
encountered; Go's `nil` byte slice and empty text are `[]` and `""`. -/
structure Result where
  SHA1Hex : String
  Status : String
  Err : Option String
  FileInf : Option FileInfo
  Text : List Nat
  Page0Thumbnail : List Nat
  Weblinks : List String
  deriving DecidableEq, Repr

/-- pdfextract.go `Result.HasPage0Thumbnail`:

```go
func (result *Result) HasPage0Thumbnail() bool {
    return len(result.Page0Thumbnail) > 50
}
```
-/
def Result.HasPage0Thumbnail (result : Result) : Bool :=
  50 < result.Page0Thumbnail.length

/-- Outcomes of the external steps `ProcessBlob` drives, in pipeline
order: temp-file creation, the copy into it, `pdftotext` (bytes of
stdout, `none` on error), `pdftoppm` (bytes of the rendered page,
`none` on error), `pdfcpu` metadata parsing, and the matches the URL
regex finds in the extracted text. -/
structure PdfEnv where
  tempFileOk : Bool
  copyOk : Bool
  textResult : Option (List Nat)
  thumbResult : Option (List Nat)
  metadataOk : Bool
  linkMatches : List String
  deriving Repr

/-- Translated from pdfextract.go `ProcessBlob` (lines 210-303),
branch by branch; `fi` is what `FileInfo.FromBytes` computed for the
blob:

 1. temp-file creation failure and copy failure return a `Result` with
    only `SHA1Hex`, `Err`, `FileInfo` set (`Status` is Go's zero value,
    the empty string);
 2. `fi.Mimetype != "application/pdf"` → status "not-pdf";
 3. `fi.SHA1Hex` on the block-list → status "bad-pdf";
 4. text extraction error → "parse-error" (FileInfo not set);
    empty text → "empty-pdf";
 5. thumbnail extraction error → "parse-error"; a thumbnail smaller
    than 50 bytes is replaced by nil;
 6. metadata extraction error → "parse-error";
 7. otherwise status "success" with text, thumbnail and the cleaned,
    sorted, deduplicated weblinks. -/
def ProcessBlob (env : PdfEnv) (fi : FileInfo) : Result :=
  if env.tempFileOk = false then
    { SHA1Hex := fi.SHA1Hex, Status := "", Err := some "create temp file failed",
      FileInf := some fi, Text := [], Page0Thumbnail := [], Weblinks := [] }
  else if env.copyOk = false then
    { SHA1Hex := fi.SHA1Hex, Status := "", Err := some "copy to temp file failed",
      FileInf := some fi, Text := [], Page0Thumbnail := [], Weblinks := [] }
  else if fi.Mimetype ≠ "application/pdf" then
    { SHA1Hex := fi.SHA1Hex, Status := "not-pdf",
      Err := some ("mimetype is " ++ fi.Mimetype),
      FileInf := some fi, Text := [], Page0Thumbnail := [], Weblinks := [] }
  else if fi.SHA1Hex ∈ BAD_PDF_SHA1HEX then
    { SHA1Hex := fi.SHA1Hex, Status := "bad-pdf",
      Err := some "PDF known to cause processing issues",
      FileInf := some fi, Text := [], Page0Thumbnail := [], Weblinks := [] }
  else
    match env.textResult with
    | none =>
      { SHA1Hex := fi.SHA1Hex, Status := "parse-error",
        Err := some "text extraction failed",
        FileInf := none, Text := [], Page0Thumbnail := [], Weblinks := [] }
    | some text =>
      if text = [] then
        { SHA1Hex := fi.SHA1Hex, Status := "empty-pdf",
          Err := some "zero length text",
          FileInf := none, Text := [], Page0Thumbnail := [], Weblinks := [] }
      else
        match env.thumbResult with
        | none =>
          { SHA1Hex := fi.SHA1Hex, Status := "parse-error",
            Err := some "thumbnail extraction failed",
            FileInf := none, Text := [], Page0Thumbnail := [], Weblinks := [] }
        | some thumb =>
          let page0Thumbnail := if thumb.length < 50 then [] else thumb
          if env.metadataOk = false then
            { SHA1Hex := fi.SHA1Hex, Status := "parse-error",
              Err := some "pdf info extraction failed",
              FileInf := none, Text := [], Page0Thumbnail := [], Weblinks := [] }
          else
            { SHA1Hex := fi.SHA1Hex, Status := "success", Err := none,
              FileInf := some fi, Text := text,
              Page0Thumbnail := page0Thumbnail,
              Weblinks := extractWeblinks env.linkMatches }

/-- Translated from pdfextract.go `ProcessFile` (lines 189-204): open
the file, read it, then hand the bytes to `ProcessBlob`.  An open or
read error returns a `Result` carrying only `Err` — every other field,
including `Status`, stays at its zero value. -/
def ProcessFile (openOk readOk : Bool) (env : PdfEnv) (fi : FileInfo) : Result :=
  if openOk = false then
    { SHA1Hex := "", Status := "", Err := some "open failed",
      FileInf := none, Text := [], Page0Thumbnail := [], Weblinks := [] }
  else if readOk = false then
    { SHA1Hex := "", Status := "", Err := some "read failed",
      FileInf := none, Text := [], Page0Thumbnail := [], Weblinks := [] }
  else ProcessBlob env fi

/-- C6 counterexample: when opening the file fails, `ProcessFile`
returns a `Result` whose status is the empty string — a value outside
the claimed closed set {success, not-pdf, bad-pdf, empty-pdf,
parse-error}. -/
theorem processFile_empty_status_counterexample :
    (ProcessFile false true ⟨true, true, none, none, true, []⟩
        ⟨0, "", "", "", ""⟩).Status = "" ∧
    "" ∉ ["success", "not-pdf", "bad-pdf", "empty-pdf", "parse-error"] := by
  refine ⟨rfl, by decide⟩

/-- C6 as amended: every `Result` returned by `ProcessFile` /
`ProcessBlob` has a status drawn from the closed set
{"", success, not-pdf, bad-pdf, empty-pdf, parse-error}; the empty
status occurs exactly when opening or reading the file, or creating or
filling the temp file, fails (those Results carry only an error); and
the first failing extraction step — text, thumbnail, or metadata —
produces status "parse-error" and aborts the remaining steps: a text
failure fixes the result regardless of the thumbnail and metadata
outcomes, a thumbnail failure (after text succeeded) fixes it
regardless of the metadata outcome, and a metadata failure (after text
and thumbnail succeeded) yields the metadata parse-error result. -/
theorem process_status_closed (openOk readOk : Bool) (env : PdfEnv)
    (fi : FileInfo) :
    ((ProcessFile openOk readOk env fi).Status
        ∈ ["", "success", "not-pdf", "bad-pdf", "empty-pdf", "parse-error"]) ∧
    ((ProcessFile openOk readOk env fi).Status = "" ↔
      (openOk = false ∨ readOk = false ∨ env.tempFileOk = false
        ∨ env.copyOk = false)) ∧
    (openOk = true → readOk = true → env.tempFileOk = true →
      env.copyOk = true → fi.Mimetype = "application/pdf" →
      fi.SHA1Hex ∉ BAD_PDF_SHA1HEX → env.textResult = none →
      ProcessFile openOk readOk env fi
        = { SHA1Hex := fi.SHA1Hex, Status := "parse-error",
            Err := some "text extraction failed", FileInf := none,
            Text := [], Page0Thumbnail := [], Weblinks := [] }) ∧
    (openOk = true → readOk = true → env.tempFileOk = true →
      env.copyOk = true → fi.Mimetype = "application/pdf" →
      fi.SHA1Hex ∉ BAD_PDF_SHA1HEX →
      ∀ text, env.textResult = some text → text ≠ [] →
      env.thumbResult = none →
      ProcessFile openOk readOk env fi
        = { SHA1Hex := fi.SHA1Hex, Status := "parse-error",
            Err := some "thumbnail extraction failed", FileInf := none,
            Text := [], Page0Thumbnail := [], Weblinks := [] }) ∧
    (openOk = true → readOk = true → env.tempFileOk = true →
      env.copyOk = true → fi.Mimetype = "application/pdf" →
      fi.SHA1Hex ∉ BAD_PDF_SHA1HEX →
      ∀ text, env.textResult = some text → text ≠ [] →
      ∀ thumb, env.thumbResult = some thumb → env.metadataOk = false →
      ProcessFile openOk readOk env fi
        = { SHA1Hex := fi.SHA1Hex, Status := "parse-error",
            Err := some "pdf info extraction failed", FileInf := none,
            Text := [], Page0Thumbnail := [], Weblinks := [] }) := by
  refine ⟨?_, ?_, ?_, ?_, ?_⟩
  · unfold ProcessFile ProcessBlob
    repeat' split
    all_goals simp
  · unfold ProcessFile ProcessBlob
    repeat' split
    all_goals simp_all
  · intro h1 h2 h3 h4 h5 h6 h7
    unfold ProcessFile ProcessBlob
    simp [h1, h2, h3, h4, h5, h6, h7]
  · intro h1 h2 h3 h4 h5 h6 text h7 h8 h9
    unfold ProcessFile ProcessBlob
    simp [h1, h2, h3, h4, h5, h6, h7, h8, h9]
  · intro h1 h2 h3 h4 h5 h6 text h7 h8 thumb h9 h10
    unfold ProcessFile ProcessBlob
    simp [h1, h2, h3, h4, h5, h6, h7, h8, h9, h10]

/-- The three abort conjuncts exercised at concrete inputs: text
failure (thumbnail and metadata outcomes irrelevant), thumbnail
failure after a successful text step (metadata outcome irrelevant),
and metadata failure after successful text and thumbnail steps. -/
theorem process_status_closed_witness :
    (ProcessFile true true ⟨true, true, none, some [1], false, []⟩
        ⟨2, "0000000000000000000000000000000000000000", "", "",
          "application/pdf"⟩
      = { SHA1Hex := "0000000000000000000000000000000000000000",
          Status := "parse-error", Err := some "text extraction failed",
          FileInf := none, Text := [], Page0Thumbnail := [],
          Weblinks := [] }) ∧
    (ProcessFile true true ⟨true, true, some [1], none, false, []⟩
        ⟨2, "0000000000000000000000000000000000000000", "", "",
          "application/pdf"⟩
      = { SHA1Hex := "0000000000000000000000000000000000000000",
          Status := "parse-error",
          Err := some "thumbnail extraction failed",
          FileInf := none, Text := [], Page0Thumbnail := [],
          Weblinks := [] }) ∧
    (ProcessFile true true ⟨true, true, some [1], some [2], false, []⟩
        ⟨2, "0000000000000000000000000000000000000000", "", "",
          "application/pdf"⟩
      = { SHA1Hex := "0000000000000000000000000000000000000000",
          Status := "parse-error",
          Err := some "pdf info extraction failed",
          FileInf := none, Text := [], Page0Thumbnail := [],
          Weblinks := [] }) :=
  ⟨(process_status_closed true true ⟨true, true, none, some [1], false, []⟩
      ⟨2, "0000000000000000000000000000000000000000", "", "",
        "application/pdf"⟩).2.2.1
    rfl rfl rfl rfl rfl (by decide) rfl,
   (process_status_closed true true ⟨true, true, some [1], none, false, []⟩
      ⟨2, "0000000000000000000000000000000000000000", "", "",
        "application/pdf"⟩).2.2.2.1
    rfl rfl rfl rfl rfl (by decide) [1] rfl (by decide) rfl,
   (process_status_closed true true ⟨true, true, some [1], some [2], false, []⟩
      ⟨2, "0000000000000000000000000000000000000000", "", "",
        "application/pdf"⟩).2.2.2.2
    rfl rfl rfl rfl rfl (by decide) [1] rfl (by decide) [2] rfl rfl⟩

/-- C7 counterexample: a rasterizer output of exactly 50 bytes is kept
in the result (only outputs strictly smaller than 50 bytes are
cleared), yet `HasPage0Thumbnail` reports it absent (it requires
strictly more than 50 bytes) — so "50 or more bytes implies reported
present" fails at 50. -/
theorem thumbnail_exactly50_counterexample :
    ((ProcessBlob ⟨true, true, some [104, 105], some (List.replicate 50 7),
        true, []⟩
        ⟨2, "0000000000000000000000000000000000000000", "", "",
          "application/pdf"⟩).Page0Thumbnail = List.replicate 50 7) ∧
    ((ProcessBlob ⟨true, true, some [104, 105], some (List.replicate 50 7),
        true, []⟩
        ⟨2, "0000000000000000000000000000000000000000", "", "",
          "application/pdf"⟩).HasPage0Thumbnail = false) := by
  refine ⟨?_, ?_⟩ <;> decide

/-- C7 as amended: a rasterized page-0 thumbnail is cleared from the
result if and only if it is smaller than 50 bytes, but it is reported
present (`HasPage0Thumbnail`) if and only if it is strictly larger than
50 bytes: outputs of fewer than 50 bytes are dropped and reported
absent, outputs of exactly 50 bytes are kept in the result yet reported
absent (and hence not persisted by the walker), and only outputs of 51
bytes or more are reported present. -/
theorem thumbnail_threshold (env : PdfEnv) (fi : FileInfo)
    (text thumb : List Nat)
    (h1 : env.tempFileOk = true) (h2 : env.copyOk = true)
    (h3 : fi.Mimetype = "application/pdf")
    (h4 : fi.SHA1Hex ∉ BAD_PDF_SHA1HEX)
    (h5 : env.textResult = some text) (h6 : text ≠ [])
    (h7 : env.thumbResult = some thumb) (h8 : env.metadataOk = true) :
    ((ProcessBlob env fi).Page0Thumbnail
      = if thumb.length < 50 then [] else thumb) ∧
    ((ProcessBlob env fi).HasPage0Thumbnail = true ↔ 50 < thumb.length) := by
  have hres : (ProcessBlob env fi).Page0Thumbnail
      = if thumb.length < 50 then [] else thumb := by
    unfold ProcessBlob
    simp [h1, h2, h3, h4, h5, h6, h7, h8]
  refine ⟨hres, ?_⟩
  unfold Result.HasPage0Thumbnail
  rw [hres]
  by_cases hlt : thumb.length < 50
  · rw [if_pos hlt]
    simp
    omega
  · rw [if_neg hlt]
    simp

/-- Only outputs of 51 bytes or more are reported present: witness at a
51-byte thumbnail. -/
theorem thumbnail_threshold_witness :
    ((ProcessBlob ⟨true, true, some [104, 105], some (List.replicate 51 7),
        true, []⟩
        ⟨2, "0000000000000000000000000000000000000000", "", "",
          "application/pdf"⟩).Page0Thumbnail
      = if (List.replicate 51 7).length < 50 then [] else List.replicate 51 7) ∧
    ((ProcessBlob ⟨true, true, some [104, 105], some (List.replicate 51 7),
        true, []⟩
        ⟨2, "0000000000000000000000000000000000000000", "", "",
          "application/pdf"⟩).HasPage0Thumbnail = true
      ↔ 50 < (List.replicate 51 7).length) :=
  thumbnail_threshold ⟨true, true, some [104, 105],
      some (List.replicate 51 7), true, []⟩
    ⟨2, "0000000000000000000000000000000000000000", "", "",
      "application/pdf"⟩
    [104, 105] (List.replicate 51 7) rfl rfl rfl (by decide) rfl
    (by decide) rfl rfl

/-! ## The parallel spool walker (blobrun.go, `WalkFast.Run`) -/

/-- The error outcomes of `WalkFast.Run`: the two sanity-check errors
("walker needs grobid setup", "walker needs S3") and a failure of the
directory walk itself. -/
inductive RunError where
  | needsGrobid
  | needsS3
  | walkFailed
  deriving DecidableEq, Repr

/-- The fields of blobrun.go `WalkFast` that `Run`'s sanity checks
read: the Grobid client and the S3 client, each either present
(`some ()`) or nil. -/
structure WalkFast where
  Grobid : Option Unit
  S3 : Option Unit
  deriving Repr

/-- Translated from blobrun.go `WalkFast.Run`:

```go
func (w *WalkFast) Run(ctx context.Context) error {
    if w.Grobid == nil {
        return fmt.Errorf("walker needs grobid setup")
    }
    if w.S3 == nil {
        return fmt.Errorf("walker needs S3")
    }
    ...
    err := filepath.Walk(w.Dir, ...)
    ...
    return err
}
```

The walk itself involves the filesystem and the worker pool; its
result enters the model as `walkOutcome` (`none` for a nil error). -/
def WalkFast.Run (w : WalkFast) (walkOutcome : Option RunError) :
    Option RunError :=
  if w.Grobid = none then some RunError.needsGrobid
  else if w.S3 = none then some RunError.needsS3
  else walkOutcome

/-- What the sequential processor does with one artifact put. -/
inductive SpoolAction where
  | s3Put
  | debugSkip
  deriving DecidableEq, Repr

/-- Translated from the `switch { case wrapS3 == nil: slog.Debug(...)
default: ... wrapS3.PutBlob(...) }` blocks in `processSingleFile`
(cmd/blobproc, sequential path): with no S3 client each put is replaced
by a debug log line. -/
def s3PutStep (wrapS3 : Option Unit) : SpoolAction :=
  match wrapS3 with
  | none => SpoolAction.debugSkip
  | some _ => SpoolAction.s3Put

/-- C2 counterexample: `WalkFast.Run` with a nil S3 client (and a
Grobid client present) returns the initialisation error "walker needs
S3" — it does not run the walk. -/
theorem walkFast_nil_s3_counterexample :
    WalkFast.Run ⟨some (), none⟩ none = some RunError.needsS3 ∧
    WalkFast.Run ⟨some (), none⟩ none ≠ none := by
  refine ⟨rfl, by decide⟩

/-- C2 as amended: `WalkFast.Run` with a nil S3 client returns the
initialisation error "walker needs S3" before walking the spool,
whatever the walk would have produced; the degradation the spec
describes — each Put replaced by a debug log line — is implemented in
the sequential processor path (`processSingleFile`), not in
`WalkFast`. -/
theorem walkFast_nil_s3_errors (w : WalkFast) (walkOutcome : Option RunError)
    (hg : w.Grobid ≠ none) (hs : w.S3 = none) :
    WalkFast.Run w walkOutcome = some RunError.needsS3 ∧
    s3PutStep none = SpoolAction.debugSkip := by
  unfold WalkFast.Run
  rw [if_neg hg, if_pos hs]
  exact ⟨rfl, rfl⟩

theorem walkFast_nil_s3_errors_witness :
    WalkFast.Run ⟨some (), none⟩ (some RunError.walkFailed)
      = some RunError.needsS3 ∧
    s3PutStep none = SpoolAction.debugSkip :=
  walkFast_nil_s3_errors ⟨some (), none⟩ (some RunError.walkFailed)
    (by simp) rfl
